/-
Verification of gnome-session-restore against its specification.

Part A embeds the window-listing script `src/js/list_all_windows.js`
shallowly: GNOME Shell window actors and meta windows become Lean
structures, the external Mutter method `find_root_ancestor` becomes an
explicit function parameter, and the map/map/filter pipeline of the
script becomes the Lean function `list_all_windows`.

Part B models, from the specification's words, the components of the
repository that are not present under src/ (the Command Resolver, the
session-document serialization, and the Window Matcher); each such
definition carries a doc comment starting `Modelled from the spec:`.
-/
import Mathlib

/-! ## Part A: the window-listing script, embedded from the source -/

/-- A frame rectangle as returned by `w.get_frame_rect()`. -/
structure Rect where
  x : Int
  y : Int
  width : Int
  height : Int
deriving DecidableEq, Repr

/-- A Mutter meta window, holding exactly the data the script reads from it:
`wm_class` (nullable in JS, hence `Option`), the frame rectangle, the
`minimized` flag, `get_pid()`, `get_stable_sequence()` and
`get_gtk_application_id()` (nullable). -/
structure MetaWindow where
  wm_class : Option String
  frame_rect : Rect
  minimized : Bool
  pid : Int
  stable_sequence : Int
  gtk_application_id : Option String
deriving DecidableEq, Repr

/-- A window actor from `global.get_window_actors()`: the script only reads
its `meta_window` property. -/
structure WindowActor where
  meta_window : MetaWindow
deriving DecidableEq, Repr

/-- The `geom` object literal built on lines 9-15 of the script. -/
structure Geom where
  x : Int
  y : Int
  width : Int
  height : Int
  minimized : Bool
deriving DecidableEq, Repr

/-- The record object literal built on lines 7-19 of the script. Field names
follow the source: `geom`, `stable_seq`, `gtk_app_id`. -/
structure WindowData where
  window_class : Option String
  geom : Geom
  pid : Int
  stable_seq : Int
  gtk_app_id : Option String
deriving DecidableEq, Repr

/-- The record construction of lines 4-20: from a (root-ancestor) meta window
`w`, build the `WindowData` object from `w.get_frame_rect()` and the other
properties the script reads. -/
def mkRecord (w : MetaWindow) : WindowData :=
  { window_class := w.wm_class
    geom :=
      { x := w.frame_rect.x
        y := w.frame_rect.y
        width := w.frame_rect.width
        height := w.frame_rect.height
        minimized := w.minimized }
    pid := w.pid
    stable_seq := w.stable_sequence
    gtk_app_id := w.gtk_application_id }

/-- The filter predicate of line 21: `data.geom.x >= 0 && data.geom.y >= 0`. -/
def geomFilter (data : WindowData) : Bool :=
  decide (data.geom.x ≥ 0) && decide (data.geom.y ≥ 0)

/-- The whole script: `global.get_window_actors()` is the `actors` argument,
the external Mutter method `find_root_ancestor` is the function argument,
then `.map(a => a.meta_window.find_root_ancestor())`,
`.map(w => { ... })` and `.filter(data => ...)` as in the source. -/
def list_all_windows (find_root_ancestor : MetaWindow → MetaWindow)
    (actors : List WindowActor) : List WindowData :=
  ((actors.map (fun a => find_root_ancestor a.meta_window)).map mkRecord).filter
    geomFilter

/-! ### A JSON-like value type

Used both to state which fields the script's record object carries (the
script's result is returned to the caller as JSON) and, in Part B, to model
the session-document serialization. -/

/-- A JSON value. -/
inductive JVal where
  | jstr : String → JVal
  | jint : Int → JVal
  | jbool : Bool → JVal
  | jnull : JVal
  | jarr : List JVal → JVal
  | jobj : List (String × JVal) → JVal
deriving Repr

/-- The JSON object a produced `WindowData` record is made of, mirroring the
object literal of lines 7-19 key for key (nullable JS values become
`jnull`). -/
def WindowData.toFields (d : WindowData) : List (String × JVal) :=
  [ ("window_class", match d.window_class with
      | some s => JVal.jstr s
      | none => JVal.jnull),
    ("geom", JVal.jobj
      [ ("x", JVal.jint d.geom.x),
        ("y", JVal.jint d.geom.y),
        ("width", JVal.jint d.geom.width),
        ("height", JVal.jint d.geom.height),
        ("minimized", JVal.jbool d.geom.minimized) ]),
    ("pid", JVal.jint d.pid),
    ("stable_seq", JVal.jint d.stable_seq),
    ("gtk_app_id", match d.gtk_app_id with
      | some s => JVal.jstr s
      | none => JVal.jnull) ]

/-- Modelled from the spec: the field names of §3's `WindowRecord` as the
spec lists them (`window_class`, `geometry`, `pid`, `stable_sequence`,
`gtk_app_id`, `sandboxed_app_id`); for comparison with the keys the script
actually produces. -/
def specWindowRecordFieldNames : List String :=
  ["window_class", "geometry", "pid", "stable_sequence", "gtk_app_id",
   "sandboxed_app_id"]

/-! ## Part B: components not present under src/, modelled from the spec -/

/-- Modelled from the spec: §3's `WindowRecord` with the fields the spec
lists — the Command Resolver, serializer and Window Matcher are not under
src/, so they are modelled over this record type (`window_class` "may be
absent/empty" is modelled as a possibly empty string; the two app ids are
optional). -/
structure SpecRecord where
  window_class : String
  geometry : Geom
  pid : Int
  stable_sequence : Int
  gtk_app_id : Option String
  sandboxed_app_id : Option String
deriving DecidableEq, Repr

/-- Modelled from the spec: the provenance tag of §3's `ResolvedCommand`. -/
inductive CmdSource where
  | GtkAppId
  | SandboxedAppId
  | WmClassOrExeHeuristic
  | RawCmdline
deriving DecidableEq, Repr

/-- Modelled from the spec: §3's `ResolvedCommand` — an argv and its
provenance tag. -/
structure ResolvedCommand where
  argv : List String
  source : CmdSource
deriving DecidableEq, Repr

/-- Modelled from the spec: the reasons of §7's `ResolutionFailure`. -/
inductive ResolutionFailure where
  | ProcessGone
  | NoDesktopEntry
deriving DecidableEq, Repr

/-- Modelled from the spec: the two leaf collaborators of §6 — the Desktop
Entry Locator (`lookup`) and the Process Inspector (`read_cmdline`). -/
structure ResolveEnv where
  lookup : String → Option (List String)
  read_cmdline : Int → Option (List String)

/-- Helper for `baseName`: walk the characters, restarting the accumulator
after every slash. -/
def baseNameAux (cs : List Char) (cur : List Char) : List Char :=
  match cs with
  | [] => cur
  | c :: rest => if c = '/' then baseNameAux rest [] else baseNameAux rest (cur ++ [c])

/-- Modelled from the spec: the base name of an executable path found via
`/proc/pid/cmdline` (the part after the last slash). -/
def baseName (s : String) : String :=
  String.mk (baseNameAux s.data [])

/-- Modelled from the spec: step 1 or 2 of the resolver's fallback chain —
if the given app id is present and non-empty, query the Desktop Entry
Locator with it; on hit, return the command tagged with the given source. -/
def tryAppId (env : ResolveEnv) (appId : Option String) (src : CmdSource) :
    Option ResolvedCommand :=
  match appId with
  | some id => if id = "" then none else
      (env.lookup id).map (fun argv => { argv := argv, source := src })
  | none => none

/-- Modelled from the spec: step 3 — query the Desktop Entry Locator with the
window class, then (if that misses) with the executable base name obtained
from the Process Inspector; on either hit tag `WmClassOrExeHeuristic`. -/
def tryHeuristic (env : ResolveEnv) (r : SpecRecord) : Option ResolvedCommand :=
  match env.lookup r.window_class with
  | some argv => some { argv := argv, source := CmdSource.WmClassOrExeHeuristic }
  | none =>
      match (env.read_cmdline r.pid).bind List.head? with
      | some exe =>
          (env.lookup (baseName exe)).map
            (fun argv => { argv := argv, source := CmdSource.WmClassOrExeHeuristic })
      | none => none

/-- Modelled from the spec: §4.1's Command Resolver — the fixed fallback
chain, first success wins: gtk app id, then sandboxed app id, then the
window-class/executable heuristic, then the raw live command line; if the
process is gone or reports no arguments at step 4, fail with
`ProcessGone`. -/
def resolve (env : ResolveEnv) (r : SpecRecord) :
    Except ResolutionFailure ResolvedCommand :=
  match tryAppId env r.gtk_app_id CmdSource.GtkAppId with
  | some c => Except.ok c
  | none =>
  match tryAppId env r.sandboxed_app_id CmdSource.SandboxedAppId with
  | some c => Except.ok c
  | none =>
  match tryHeuristic env r with
  | some c => Except.ok c
  | none =>
  match env.read_cmdline r.pid with
  | none => Except.error ResolutionFailure.ProcessGone
  | some [] => Except.error ResolutionFailure.ProcessGone
  | some (a :: rest) =>
      Except.ok { argv := a :: rest, source := CmdSource.RawCmdline }

/-! ### Session-document serialization, modelled from the spec (§3, §6) -/

/-- Field access in a JSON object: the value under the first occurrence of
the key, if any. -/
def getField (fs : List (String × JVal)) (k : String) : Option JVal :=
  match fs with
  | [] => none
  | (k2, v) :: rest => if k2 = k then some v else getField rest k

/-- Modelled from the spec: an optional string field is omitted from the
serialized object when absent. -/
def serOptField (k : String) (v : Option String) : List (String × JVal) :=
  match v with
  | none => []
  | some s => [(k, JVal.jstr s)]

/-- Modelled from the spec: reading an optional string field back — an
absent key and an explicit `null` are both accepted as "absent". -/
def parseOptField (fs : List (String × JVal)) (k : String) :
    Option (Option String) :=
  match getField fs k with
  | none => some none
  | some JVal.jnull => some none
  | some (JVal.jstr s) => some (some s)
  | some _ => none

/-- Modelled from the spec: serialize §3's geometry object. -/
def serGeom (g : Geom) : JVal :=
  JVal.jobj
    [ ("x", JVal.jint g.x),
      ("y", JVal.jint g.y),
      ("width", JVal.jint g.width),
      ("height", JVal.jint g.height),
      ("minimized", JVal.jbool g.minimized) ]

/-- Modelled from the spec: parse a geometry object back. -/
def parseGeom (v : JVal) : Option Geom :=
  match v with
  | JVal.jobj fs => do
      let x ← match getField fs "x" with | some (JVal.jint n) => some n | _ => none
      let y ← match getField fs "y" with | some (JVal.jint n) => some n | _ => none
      let w ← match getField fs "width" with | some (JVal.jint n) => some n | _ => none
      let h ← match getField fs "height" with | some (JVal.jint n) => some n | _ => none
      let m ← match getField fs "minimized" with | some (JVal.jbool b) => some b | _ => none
      pure { x := x, y := y, width := w, height := h, minimized := m }
  | _ => none

/-- Modelled from the spec: the fields of a serialized `WindowRecord`,
optional fields omitted when absent. -/
def serRecordFields (r : SpecRecord) : List (String × JVal) :=
  [ ("window_class", JVal.jstr r.window_class),
    ("geometry", serGeom r.geometry),
    ("pid", JVal.jint r.pid),
    ("stable_sequence", JVal.jint r.stable_sequence) ]
  ++ serOptField "gtk_app_id" r.gtk_app_id
  ++ serOptField "sandboxed_app_id" r.sandboxed_app_id

/-- Modelled from the spec: serialize a `WindowRecord` as an object of its
fields. -/
def serRecord (r : SpecRecord) : JVal :=
  JVal.jobj (serRecordFields r)

/-- Modelled from the spec: parse a `WindowRecord` back, accepting absent or
null optional fields. -/
def parseRecord (v : JVal) : Option SpecRecord :=
  match v with
  | JVal.jobj fs => do
      let wc ← match getField fs "window_class" with
        | some (JVal.jstr s) => some s
        | _ => none
      let g ← (getField fs "geometry").bind parseGeom
      let p ← match getField fs "pid" with | some (JVal.jint n) => some n | _ => none
      let sq ← match getField fs "stable_sequence" with
        | some (JVal.jint n) => some n
        | _ => none
      let gid ← parseOptField fs "gtk_app_id"
      let sid ← parseOptField fs "sandboxed_app_id"
      pure { window_class := wc, geometry := g, pid := p, stable_sequence := sq,
             gtk_app_id := gid, sandboxed_app_id := sid }
  | _ => none

/-- Modelled from the spec: serialize the provenance tag as a string. -/
def serSource (s : CmdSource) : JVal :=
  match s with
  | CmdSource.GtkAppId => JVal.jstr "GtkAppId"
  | CmdSource.SandboxedAppId => JVal.jstr "SandboxedAppId"
  | CmdSource.WmClassOrExeHeuristic => JVal.jstr "WmClassOrExeHeuristic"
  | CmdSource.RawCmdline => JVal.jstr "RawCmdline"

/-- Modelled from the spec: parse the provenance tag back. -/
def parseSource (v : JVal) : Option CmdSource :=
  match v with
  | JVal.jstr "GtkAppId" => some CmdSource.GtkAppId
  | JVal.jstr "SandboxedAppId" => some CmdSource.SandboxedAppId
  | JVal.jstr "WmClassOrExeHeuristic" => some CmdSource.WmClassOrExeHeuristic
  | JVal.jstr "RawCmdline" => some CmdSource.RawCmdline
  | _ => none

/-- Modelled from the spec: parse a JSON array of strings (an argv). -/
def parseStrList (vs : List JVal) : Option (List String) :=
  match vs with
  | [] => some []
  | JVal.jstr s :: rest => (parseStrList rest).map (fun xs => s :: xs)
  | _ => none

/-- Modelled from the spec: serialize a `ResolvedCommand`. -/
def serCommand (c : ResolvedCommand) : JVal :=
  JVal.jobj
    [ ("argv", JVal.jarr (c.argv.map JVal.jstr)),
      ("source", serSource c.source) ]

/-- Modelled from the spec: parse a `ResolvedCommand` back. -/
def parseCommand (v : JVal) : Option ResolvedCommand :=
  match v with
  | JVal.jobj fs => do
      let argv ← match getField fs "argv" with
        | some (JVal.jarr vs) => parseStrList vs
        | _ => none
      let src ← (getField fs "source").bind parseSource
      pure { argv := argv, source := src }
  | _ => none

/-- Modelled from the spec: one pair of §3's `SessionDocument`. -/
def serPair (p : SpecRecord × ResolvedCommand) : JVal :=
  JVal.jobj [ ("record", serRecord p.1), ("command", serCommand p.2) ]

/-- Modelled from the spec: parse one document pair back. -/
def parsePair (v : JVal) : Option (SpecRecord × ResolvedCommand) :=
  match v with
  | JVal.jobj fs => do
      let r ← (getField fs "record").bind parseRecord
      let c ← (getField fs "command").bind parseCommand
      pure (r, c)
  | _ => none

/-- Modelled from the spec: §3's `SessionDocument` — an ordered sequence of
(record, command) pairs, serialized as one array of objects. -/
def serDoc (doc : List (SpecRecord × ResolvedCommand)) : JVal :=
  JVal.jarr (doc.map serPair)

/-- Modelled from the spec: parse each element of the array; any malformed
element fails the whole parse. -/
def parsePairs (vs : List JVal) : Option (List (SpecRecord × ResolvedCommand)) :=
  match vs with
  | [] => some []
  | v :: rest => do
      let p ← parsePair v
      let ps ← parsePairs rest
      pure (p :: ps)

/-- Modelled from the spec: parse a serialized `SessionDocument`. -/
def parseDoc (v : JVal) : Option (List (SpecRecord × ResolvedCommand)) :=
  match v with
  | JVal.jarr vs => parsePairs vs
  | _ => none

/-! ### Window Matcher, modelled from the spec (§4.4) -/

/-- Modelled from the spec: a live window observation of §3's
`MatchCandidate` — `{window_class, pid, stable_sequence, geometry}`. -/
structure ObsWindow where
  window_class : String
  pid : Int
  stable_sequence : Int
  geometry : Geom
deriving DecidableEq, Repr

/-- Modelled from the spec: the per-record state machine of §4.4,
`Pending → Matched | TimedOut` (terminal); `matched` carries the stable
sequence of the consumed observed window. -/
inductive MatchState where
  | pending
  | matched : Int → MatchState
  | timedOut
deriving DecidableEq, Repr

/-- Modelled from the spec: scan the observed windows (in enumeration order,
the documented tie-break when launch-pid ancestry is unavailable) for the
first unconsumed one whose class equals the record's non-empty class;
records with empty `window_class` cannot be matched by this criterion. -/
def findMatch (cls : String) (consumed : List Int) (observed : List ObsWindow) :
    Option ObsWindow :=
  if cls = "" then none
  else observed.find? (fun w =>
    w.window_class = cls && !(consumed.contains w.stable_sequence))

/-- Modelled from the spec: one poll of §4.4 — walk the records in order; a
still-pending record that finds an unconsumed observed window of its class
becomes `matched` and consumes that window (its stable sequence joins the
consumption set threading through the rest of the walk). Returns the new
record states and the grown consumption set. -/
def pollOnce (records : List (SpecRecord × MatchState)) (consumed : List Int)
    (observed : List ObsWindow) : List (SpecRecord × MatchState) × List Int :=
  match records with
  | [] => ([], consumed)
  | (r, st) :: rest =>
      match st with
      | MatchState.pending =>
          match findMatch r.window_class consumed observed with
          | some w =>
              let out := pollOnce rest (w.stable_sequence :: consumed) observed
              ((r, MatchState.matched w.stable_sequence) :: out.1, out.2)
          | none =>
              let out := pollOnce rest consumed observed
              ((r, MatchState.pending) :: out.1, out.2)
      | MatchState.matched s =>
          let out := pollOnce rest consumed observed
          ((r, MatchState.matched s) :: out.1, out.2)
      | MatchState.timedOut =>
          let out := pollOnce rest consumed observed
          ((r, MatchState.timedOut) :: out.1, out.2)

/-- Modelled from the spec: fold the polls of one matcher run — each poll
sees the window list that poll observed, and the consumption set persists
across polls within the run. -/
def runPolls (polls : List (List ObsWindow))
    (st : List (SpecRecord × MatchState) × List Int) :
    List (SpecRecord × MatchState) × List Int :=
  match polls with
  | [] => st
  | obs :: rest => runPolls rest (pollOnce st.1 st.2 obs)

/-- Modelled from the spec: when the total timeout elapses, every record
still `Pending` transitions to `TimedOut`. -/
def timeoutAll (records : List (SpecRecord × MatchState)) :
    List (SpecRecord × MatchState) :=
  records.map (fun rs =>
    match rs with
    | (r, MatchState.pending) => (r, MatchState.timedOut)
    | other => other)

/-- Modelled from the spec: one whole Window Matcher run — all records start
`Pending` with an empty consumption set, the polls run in order, and the
timeout then fires. -/
def matcherRun (polls : List (List ObsWindow)) (records : List SpecRecord) :
    List (SpecRecord × MatchState) :=
  timeoutAll (runPolls polls (records.map (fun r => (r, MatchState.pending)), [])).1

/-! ### Concrete objects used by witnesses and counterexamples -/

/-- A frame rectangle with non-negative origin. -/
def rect0 : Rect := { x := 10, y := 20, width := 300, height := 200 }

/-- A frame rectangle with negative x origin. -/
def rectNeg : Rect := { x := -5, y := 20, width := 300, height := 200 }

/-- A concrete meta window with non-negative origin. -/
def win0 : MetaWindow :=
  { wm_class := some "App0", frame_rect := rect0, minimized := false,
    pid := 42, stable_sequence := 7, gtk_application_id := none }

/-- A concrete meta window with negative origin. -/
def winNeg : MetaWindow :=
  { wm_class := some "Off", frame_rect := rectNeg, minimized := false,
    pid := 43, stable_sequence := 8, gtk_application_id := some "off.App" }

/-- A concrete minimized meta window with non-negative origin. -/
def winMin : MetaWindow :=
  { wm_class := some "Mini", frame_rect := rect0, minimized := true,
    pid := 44, stable_sequence := 9, gtk_application_id := none }

/-- A second concrete meta window, a transient child whose root ancestor is
`win0`. -/
def winChild : MetaWindow :=
  { wm_class := some "App0", frame_rect := rect0, minimized := false,
    pid := 42, stable_sequence := 11, gtk_application_id := none }

/-- An actor for `win0`. -/
def actor0 : WindowActor := { meta_window := win0 }

/-- An actor for `winNeg`. -/
def actorNeg : WindowActor := { meta_window := winNeg }

/-- An actor for `winMin`. -/
def actorMin : WindowActor := { meta_window := winMin }

/-- An actor for `winChild`. -/
def actorChild : WindowActor := { meta_window := winChild }

/-- A root-ancestor map under which `winChild` is a transient child of
`win0` and every other window is its own root. -/
def rootOfChild (w : MetaWindow) : MetaWindow :=
  if w = winChild then win0 else w

/-- A concrete resolver environment: two desktop entries, one process in the
process table. -/
def envW : ResolveEnv :=
  { lookup := fun id =>
      if id = "org.app.Gtk" then some ["gtk-app", "--from-desktop"]
      else if id = "org.app.Sandbox" then some ["flatpak", "run", "org.app.Sandbox"]
      else none
    read_cmdline := fun p => if p = 42 then some ["/usr/bin/foo", "--bar"] else none }

/-- A concrete record carrying both app ids. -/
def recBoth : SpecRecord :=
  { window_class := "App0",
    geometry := { x := 10, y := 20, width := 300, height := 200, minimized := false },
    pid := 42, stable_sequence := 7,
    gtk_app_id := some "org.app.Gtk", sandboxed_app_id := some "org.app.Sandbox" }

/-- A concrete record with no app ids and no matching desktop entries, whose
process is alive. -/
def recRaw : SpecRecord :=
  { window_class := "NoEntry",
    geometry := { x := 0, y := 0, width := 1, height := 1, minimized := false },
    pid := 42, stable_sequence := 8, gtk_app_id := none, sandboxed_app_id := none }

/-- A concrete record with no app ids, no desktop entries, and a dead pid. -/
def recGone : SpecRecord :=
  { window_class := "NoEntry",
    geometry := { x := 0, y := 0, width := 1, height := 1, minimized := false },
    pid := 99, stable_sequence := 9, gtk_app_id := none, sandboxed_app_id := none }

/-- A concrete pending record with window class "Term". -/
def recA : SpecRecord :=
  { window_class := "Term",
    geometry := { x := 0, y := 0, width := 80, height := 24, minimized := false },
    pid := 1, stable_sequence := 1, gtk_app_id := none, sandboxed_app_id := none }

/-- A second concrete pending record with the same window class "Term". -/
def recB : SpecRecord :=
  { window_class := "Term",
    geometry := { x := 5, y := 5, width := 80, height := 24, minimized := false },
    pid := 2, stable_sequence := 2, gtk_app_id := none, sandboxed_app_id := none }

/-- A concrete record with empty window class. -/
def recNoClass : SpecRecord :=
  { window_class := "",
    geometry := { x := 0, y := 0, width := 1, height := 1, minimized := false },
    pid := 3, stable_sequence := 3, gtk_app_id := none, sandboxed_app_id := none }

/-- An observed window of class "Term". -/
def obs1 : ObsWindow :=
  { window_class := "Term", pid := 101, stable_sequence := 201,
    geometry := { x := 0, y := 0, width := 80, height := 24, minimized := false } }

/-- A second observed window of class "Term", distinct stable sequence. -/
def obs2 : ObsWindow :=
  { window_class := "Term", pid := 102, stable_sequence := 202,
    geometry := { x := 9, y := 9, width := 80, height := 24, minimized := false } }

/-- A concrete session document with two pairs, one with absent optional
fields. -/
def doc2 : List (SpecRecord × ResolvedCommand) :=
  [ (recBoth, { argv := ["gtk-app", "--from-desktop"], source := CmdSource.GtkAppId }),
    (recRaw, { argv := ["/usr/bin/foo", "--bar"], source := CmdSource.RawCmdline }) ]

/-! ## Theorems -/

/-- C1: a window appears in the capture-time listing iff its frame-rectangle
origin is non-negative; every produced record satisfies
`geom.x >= 0 && geom.y >= 0`. -/
theorem capture_includes_iff_nonneg_origin
    (find_root_ancestor : MetaWindow → MetaWindow) (actors : List WindowActor)
    (a : WindowActor) (ha : a ∈ actors) :
    (∀ d ∈ list_all_windows find_root_ancestor actors,
        d.geom.x ≥ 0 ∧ d.geom.y ≥ 0) ∧
    (mkRecord (find_root_ancestor a.meta_window) ∈
        list_all_windows find_root_ancestor actors ↔
      (find_root_ancestor a.meta_window).frame_rect.x ≥ 0 ∧
        (find_root_ancestor a.meta_window).frame_rect.y ≥ 0) := by
  constructor
  · intro d hd
    have h := List.of_mem_filter hd
    simp [geomFilter] at h
    exact ⟨h.1, h.2⟩
  · constructor
    · intro hmem
      have h := List.of_mem_filter hmem
      simp [geomFilter, mkRecord] at h
      exact ⟨h.1, h.2⟩
    · rintro ⟨hx, hy⟩
      apply List.mem_filter.mpr
      refine ⟨?_, ?_⟩
      · exact List.mem_map_of_mem _ (List.mem_map_of_mem _ ha)
      · simp [geomFilter, mkRecord]
        exact ⟨hx, hy⟩

/-- C1 witness: with the identity root-ancestor map and the two concrete
actors, the theorem applies to `actor0`. -/
theorem capture_includes_iff_nonneg_origin_witness :
    actor0 ∈ [actor0, actorNeg] ∧
    ((∀ d ∈ list_all_windows id [actor0, actorNeg],
        d.geom.x ≥ 0 ∧ d.geom.y ≥ 0) ∧
     (mkRecord (id actor0.meta_window) ∈ list_all_windows id [actor0, actorNeg] ↔
       (id actor0.meta_window).frame_rect.x ≥ 0 ∧
         (id actor0.meta_window).frame_rect.y ≥ 0)) :=
  ⟨by decide,
   capture_includes_iff_nonneg_origin id [actor0, actorNeg] actor0 (by decide)⟩

/-- C8: the listing is order-preserving — its output is a sublist (in order)
of the per-actor record sequence, and when every window passes the geometry
filter the output is exactly that sequence (map and filter reorder
nothing). -/
theorem capture_order_preserving (find_root_ancestor : MetaWindow → MetaWindow)
    (actors : List WindowActor) :
    List.Sublist (list_all_windows find_root_ancestor actors)
      (actors.map (fun a => mkRecord (find_root_ancestor a.meta_window))) ∧
    ((∀ a ∈ actors, (find_root_ancestor a.meta_window).frame_rect.x ≥ 0 ∧
          (find_root_ancestor a.meta_window).frame_rect.y ≥ 0) →
      list_all_windows find_root_ancestor actors =
        actors.map (fun a => mkRecord (find_root_ancestor a.meta_window))) := by
  have hmap : (actors.map (fun a => find_root_ancestor a.meta_window)).map mkRecord
      = actors.map (fun a => mkRecord (find_root_ancestor a.meta_window)) := by
    rw [List.map_map]
    rfl
  constructor
  · rw [list_all_windows, hmap]
    exact List.filter_sublist _
  · intro h
    rw [list_all_windows, hmap]
    apply List.filter_eq_self.mpr
    intro d hd
    rw [List.mem_map] at hd
    obtain ⟨a, ha, rfl⟩ := hd
    simp [geomFilter, mkRecord]
    exact ⟨(h a ha).1, (h a ha).2⟩

/-- C8 witness: the concrete two-actor list with everything on-screen. -/
theorem capture_order_preserving_witness :
    List.Sublist (list_all_windows id [actor0, actorMin])
      ([actor0, actorMin].map (fun a => mkRecord (id a.meta_window))) ∧
    list_all_windows id [actor0, actorMin] =
      [actor0, actorMin].map (fun a => mkRecord (id a.meta_window)) :=
  ⟨(capture_order_preserving id [actor0, actorMin]).1,
   (capture_order_preserving id [actor0, actorMin]).2 (by decide)⟩

/-- C9: the listing does not deduplicate after mapping each actor to its
root ancestor — two distinct actors sharing the root ancestor `win0` yield
two identical records, so the output's `stable_seq` values are not unique. -/
theorem capture_no_dedup :
    actor0 ≠ actorChild ∧
    list_all_windows rootOfChild [actor0, actorChild] =
      [mkRecord win0, mkRecord win0] ∧
    (list_all_windows rootOfChild [actor0, actorChild]).map
        (fun d => d.stable_seq) = [7, 7] ∧
    ¬ ((list_all_windows rootOfChild [actor0, actorChild]).map
        (fun d => d.stable_seq)).Nodup := by decide

/-- C10: minimization never excludes a window — a window with non-negative
origin is listed whatever its `minimized` flag, the flag is recorded in the
geometry, and the filter's value is unchanged by flipping the flag. -/
theorem minimized_never_excludes
    (find_root_ancestor : MetaWindow → MetaWindow) (actors : List WindowActor)
    (a : WindowActor) (ha : a ∈ actors)
    (hx : (find_root_ancestor a.meta_window).frame_rect.x ≥ 0)
    (hy : (find_root_ancestor a.meta_window).frame_rect.y ≥ 0) :
    mkRecord (find_root_ancestor a.meta_window) ∈
      list_all_windows find_root_ancestor actors ∧
    (mkRecord (find_root_ancestor a.meta_window)).geom.minimized =
      (find_root_ancestor a.meta_window).minimized ∧
    (∀ (w : MetaWindow) (b : Bool),
      geomFilter (mkRecord { w with minimized := b }) = geomFilter (mkRecord w)) := by
  refine ⟨?_, rfl, fun w b => rfl⟩
  apply List.mem_filter.mpr
  refine ⟨List.mem_map_of_mem _ (List.mem_map_of_mem _ ha), ?_⟩
  simp [geomFilter, mkRecord]
  exact ⟨hx, hy⟩

/-- C10 witness: the minimized concrete window `winMin` is listed. -/
theorem minimized_never_excludes_witness :
    actorMin ∈ [actorMin] ∧ winMin.minimized = true ∧
    (mkRecord (id actorMin.meta_window) ∈ list_all_windows id [actorMin] ∧
     (mkRecord (id actorMin.meta_window)).geom.minimized =
       (id actorMin.meta_window).minimized ∧
     (∀ (w : MetaWindow) (b : Bool),
       geomFilter (mkRecord { w with minimized := b }) = geomFilter (mkRecord w))) :=
  ⟨by decide, by decide,
   minimized_never_excludes id [actorMin] actorMin (by decide) (by decide) (by decide)⟩

/-- C2 counterexample: on the concrete one-actor input, the produced record's
field keys are not the spec's `WindowRecord` field names — in particular no
`sandboxed_app_id` field is ever produced (and the code spells the keys
`geom` and `stable_seq`). -/
theorem record_fields_counterexample :
    ¬ (∀ d ∈ list_all_windows id [actor0],
        d.toFields.map Prod.fst = specWindowRecordFieldNames) := by decide

/-- C2 amended: every record produced by the listing carries exactly the
fields `window_class`, `geom {x, y, width, height, minimized}`, `pid`,
`stable_seq` and `gtk_app_id`; no `sandboxed_app_id` field is produced. -/
theorem record_fields_amended (find_root_ancestor : MetaWindow → MetaWindow)
    (actors : List WindowActor) (d : WindowData)
    (_hd : d ∈ list_all_windows find_root_ancestor actors) :
    d.toFields.map Prod.fst =
      ["window_class", "geom", "pid", "stable_seq", "gtk_app_id"] ∧
    "sandboxed_app_id" ∉ d.toFields.map Prod.fst := by
  refine ⟨rfl, ?_⟩
  intro hmem
  simp [WindowData.toFields] at hmem

/-- C2 amended witness: at the concrete one-actor input. -/
theorem record_fields_amended_witness :
    mkRecord win0 ∈ list_all_windows id [actor0] ∧
    ((mkRecord win0).toFields.map Prod.fst =
       ["window_class", "geom", "pid", "stable_seq", "gtk_app_id"] ∧
     "sandboxed_app_id" ∉ (mkRecord win0).toFields.map Prod.fst) :=
  ⟨by decide, record_fields_amended id [actor0] (mkRecord win0) (by decide)⟩

/-- C3: when both app ids are present, non-empty and resolve to desktop
entries with different commands, the resolver returns the command resolved
from `gtk_app_id`, tagged `GtkAppId` (step 1 strictly precedes step 2). -/
theorem resolver_gtk_precedence (env : ResolveEnv) (r : SpecRecord)
    (g sbox : String) (ga sa : List String)
    (hg : r.gtk_app_id = some g) (hgne : g ≠ "")
    (_hs : r.sandboxed_app_id = some sbox) (_hsne : sbox ≠ "")
    (hlg : env.lookup g = some ga) (_hls : env.lookup sbox = some sa)
    (_hdiff : ga ≠ sa) :
    resolve env r = Except.ok { argv := ga, source := CmdSource.GtkAppId } := by
  unfold resolve
  simp [tryAppId, hg, hgne, hlg]

/-- C3 witness: the concrete record `recBoth` against `envW`, whose two app
ids resolve to different commands. -/
theorem resolver_gtk_precedence_witness :
    recBoth.gtk_app_id = some "org.app.Gtk" ∧
    recBoth.sandboxed_app_id = some "org.app.Sandbox" ∧
    envW.lookup "org.app.Gtk" = some ["gtk-app", "--from-desktop"] ∧
    envW.lookup "org.app.Sandbox" = some ["flatpak", "run", "org.app.Sandbox"] ∧
    (["gtk-app", "--from-desktop"] : List String) ≠
      ["flatpak", "run", "org.app.Sandbox"] ∧
    resolve envW recBoth =
      Except.ok { argv := ["gtk-app", "--from-desktop"],
                  source := CmdSource.GtkAppId } :=
  ⟨rfl, rfl, by decide, by decide, by decide,
   resolver_gtk_precedence envW recBoth "org.app.Gtk" "org.app.Sandbox"
     ["gtk-app", "--from-desktop"] ["flatpak", "run", "org.app.Sandbox"]
     rfl (by decide) rfl (by decide) (by decide) (by decide) (by decide)⟩

/-- C4: with no usable app ids and no desktop-entry match for the window
class or the executable base name, the resolver returns the live command
line tagged `RawCmdline` when the process reports arguments, and fails with
`ProcessGone` when the process is gone or reports no arguments. -/
theorem resolver_raw_fallback_and_process_gone (env : ResolveEnv)
    (r : SpecRecord)
    (hg : r.gtk_app_id = none ∨ r.gtk_app_id = some "")
    (hs : r.sandboxed_app_id = none ∨ r.sandboxed_app_id = some "")
    (hwc : env.lookup r.window_class = none) :
    (∀ a rest, env.read_cmdline r.pid = some (a :: rest) →
        env.lookup (baseName a) = none →
        resolve env r =
          Except.ok { argv := a :: rest, source := CmdSource.RawCmdline }) ∧
    (env.read_cmdline r.pid = none →
        resolve env r = Except.error ResolutionFailure.ProcessGone) ∧
    (env.read_cmdline r.pid = some [] →
        resolve env r = Except.error ResolutionFailure.ProcessGone) := by
  have h1 : tryAppId env r.gtk_app_id CmdSource.GtkAppId = none := by
    rcases hg with h | h <;> simp [tryAppId, h]
  have h2 : tryAppId env r.sandboxed_app_id CmdSource.SandboxedAppId = none := by
    rcases hs with h | h <;> simp [tryAppId, h]
  refine ⟨?_, ?_, ?_⟩
  · intro a rest hc hb
    have h3 : tryHeuristic env r = none := by
      simp [tryHeuristic, hwc, hc, hb]
    simp [resolve, h1, h2, h3, hc]
  · intro hc
    have h3 : tryHeuristic env r = none := by
      simp [tryHeuristic, hwc, hc]
    simp [resolve, h1, h2, h3, hc]
  · intro hc
    have h3 : tryHeuristic env r = none := by
      simp [tryHeuristic, hwc, hc]
    simp [resolve, h1, h2, h3, hc]

/-- C4 witness: against `envW`, the record `recRaw` (live pid 42) resolves to
the raw command line, and the record `recGone` (dead pid 99) fails with
`ProcessGone`. -/
theorem resolver_raw_fallback_witness :
    envW.lookup "NoEntry" = none ∧
    envW.read_cmdline 42 = some ["/usr/bin/foo", "--bar"] ∧
    envW.read_cmdline 99 = none ∧
    resolve envW recRaw =
      Except.ok { argv := ["/usr/bin/foo", "--bar"],
                  source := CmdSource.RawCmdline } ∧
    resolve envW recGone = Except.error ResolutionFailure.ProcessGone :=
  ⟨by decide, by decide, by decide,
   (resolver_raw_fallback_and_process_gone envW recRaw (Or.inl rfl) (Or.inl rfl)
       (by decide)).1 "/usr/bin/foo" ["--bar"] (by decide) (by decide),
   (resolver_raw_fallback_and_process_gone envW recGone (Or.inl rfl) (Or.inl rfl)
       (by decide)).2.1 (by decide)⟩

/-- Helper: a serialized record parses back to the original record. -/
theorem parseRecord_serRecord (r : SpecRecord) :
    parseRecord (serRecord r) = some r := by
  obtain ⟨wc, geo, p, sq, gid, sid⟩ := r
  cases gid <;> cases sid <;> rfl

/-- Helper: a serialized argv parses back to the original string list. -/
theorem parseStrList_map_jstr (xs : List String) :
    parseStrList (xs.map JVal.jstr) = some xs := by
  induction xs with
  | nil => rfl
  | cons a t ih => simp [parseStrList, ih]

/-- Helper: a serialized provenance tag parses back. -/
theorem parseSource_serSource (s : CmdSource) :
    parseSource (serSource s) = some s := by
  cases s <;> rfl

/-- Helper: a serialized command parses back to the original command. -/
theorem parseCommand_serCommand (c : ResolvedCommand) :
    parseCommand (serCommand c) = some c := by
  obtain ⟨argv, src⟩ := c
  simp [parseCommand, serCommand, getField, parseStrList_map_jstr,
    parseSource_serSource]

/-- Helper: a serialized document pair parses back. -/
theorem parsePair_serPair (p : SpecRecord × ResolvedCommand) :
    parsePair (serPair p) = some p := by
  obtain ⟨r, c⟩ := p
  simp [parsePair, serPair, getField, parseRecord_serRecord,
    parseCommand_serCommand]

/-- Helper: the array of serialized pairs parses back element by element. -/
theorem parsePairs_map_serPair (doc : List (SpecRecord × ResolvedCommand)) :
    parsePairs (doc.map serPair) = some doc := by
  induction doc with
  | nil => rfl
  | cons p t ih => simp [parsePairs, parsePair_serPair, ih]

/-- C5: serializing a `SessionDocument` and parsing it back yields the same
pairs field for field (hence the same count), and absent optional fields are
omitted from the serialized record rather than written as null. -/
theorem session_document_roundtrip (doc : List (SpecRecord × ResolvedCommand))
    (r : SpecRecord) (hg : r.gtk_app_id = none) (hs : r.sandboxed_app_id = none) :
    (parseDoc (serDoc doc) = some doc ∧
     (parseDoc (serDoc doc)).map List.length = some doc.length) ∧
    (getField (serRecordFields r) "gtk_app_id" = none ∧
     getField (serRecordFields r) "sandboxed_app_id" = none ∧
     parseRecord (serRecord r) = some r) := by
  have hdoc : parseDoc (serDoc doc) = some doc := by
    simp [parseDoc, serDoc, parsePairs_map_serPair]
  refine ⟨⟨hdoc, by simp [hdoc]⟩, ?_, ?_, parseRecord_serRecord r⟩
  · obtain ⟨wc, geo, p, sq, gid, sid⟩ := r
    simp only [SpecRecord.mk.injEq] at hg hs
    subst hg
    subst hs
    rfl
  · obtain ⟨wc, geo, p, sq, gid, sid⟩ := r
    simp only [SpecRecord.mk.injEq] at hg hs
    subst hg
    subst hs
    rfl

/-- C5 witness: the concrete two-pair document `doc2`, whose second record
has both optional fields absent. -/
theorem session_document_roundtrip_witness :
    recRaw.gtk_app_id = none ∧ recRaw.sandboxed_app_id = none ∧
    ((parseDoc (serDoc doc2) = some doc2 ∧
      (parseDoc (serDoc doc2)).map List.length = some doc2.length) ∧
     (getField (serRecordFields recRaw) "gtk_app_id" = none ∧
      getField (serRecordFields recRaw) "sandboxed_app_id" = none ∧
      parseRecord (serRecord recRaw) = some recRaw)) :=
  ⟨rfl, rfl, session_document_roundtrip doc2 recRaw rfl rfl⟩

/-- C6: within one poll, an observed window is consumed by at most one
record — two pending records of the same non-empty class against two
unconsumed observed windows of that class both become `matched`, to the two
distinct observed windows in order. -/
theorem matcher_no_double_consumption (r1 r2 : SpecRecord) (w1 w2 : ObsWindow)
    (c : String) (hc : c ≠ "")
    (hr1 : r1.window_class = c) (hr2 : r2.window_class = c)
    (hw1 : w1.window_class = c) (hw2 : w2.window_class = c)
    (hne : w1.stable_sequence ≠ w2.stable_sequence) :
    pollOnce [(r1, MatchState.pending), (r2, MatchState.pending)] [] [w1, w2] =
      ([(r1, MatchState.matched w1.stable_sequence),
        (r2, MatchState.matched w2.stable_sequence)],
       [w2.stable_sequence, w1.stable_sequence]) ∧
    w1.stable_sequence ≠ w2.stable_sequence := by
  have h1 : findMatch r1.window_class [] [w1, w2] = some w1 := by
    simp [findMatch, hr1, hc, List.find?, hw1]
  have h2 : findMatch r2.window_class [w1.stable_sequence] [w1, w2] = some w2 := by
    simp [findMatch, hr2, hc, List.find?, hw1, hw2, hne, Ne.symm hne]
  refine ⟨?_, hne⟩
  simp [pollOnce, h1, h2]

/-- C6 witness: the two concrete "Term" records against the two concrete
"Term" observed windows. -/
theorem matcher_no_double_consumption_witness :
    recA.window_class = "Term" ∧ recB.window_class = "Term" ∧
    obs1.window_class = "Term" ∧ obs2.window_class = "Term" ∧
    (pollOnce [(recA, MatchState.pending), (recB, MatchState.pending)] []
        [obs1, obs2] =
      ([(recA, MatchState.matched obs1.stable_sequence),
        (recB, MatchState.matched obs2.stable_sequence)],
       [obs2.stable_sequence, obs1.stable_sequence]) ∧
     obs1.stable_sequence ≠ obs2.stable_sequence) :=
  ⟨rfl, rfl, rfl, rfl,
   matcher_no_double_consumption recA recB obs1 obs2 "Term" (by decide)
     rfl rfl rfl rfl (by decide)⟩

/-- Helper: the empty window class matches no observed window. -/
theorem findMatch_empty_class (consumed : List Int) (observed : List ObsWindow) :
    findMatch "" consumed observed = none := by
  simp [findMatch]

/-- Helper: one poll leaves a pending record with empty window class pending,
at its position. -/
theorem pollOnce_preserves_empty_class (recs : List (SpecRecord × MatchState))
    (consumed : List Int) (obs : List ObsWindow) (i : Nat) (r : SpecRecord)
    (h : recs[i]? = some (r, MatchState.pending)) (hcls : r.window_class = "") :
    (pollOnce recs consumed obs).1[i]? = some (r, MatchState.pending) := by
  induction recs generalizing consumed i with
  | nil => simp at h
  | cons hd t ih =>
    obtain ⟨rh, sth⟩ := hd
    cases i with
    | zero =>
      simp only [List.getElem?_cons_zero, Option.some.injEq, Prod.mk.injEq] at h
      obtain ⟨rfl, rfl⟩ := h
      simp [pollOnce, hcls, findMatch_empty_class]
    | succ j =>
      simp only [List.getElem?_cons_succ] at h
      cases sth with
      | pending =>
        cases hfm : findMatch rh.window_class consumed obs with
        | some w =>
          simp only [pollOnce, hfm, List.getElem?_cons_succ]
          exact ih (w.stable_sequence :: consumed) j h
        | none =>
          simp only [pollOnce, hfm, List.getElem?_cons_succ]
          exact ih consumed j h
      | matched s =>
        simp only [pollOnce, List.getElem?_cons_succ]
        exact ih consumed j h
      | timedOut =>
        simp only [pollOnce, List.getElem?_cons_succ]
        exact ih consumed j h

/-- Helper: a whole sequence of polls leaves a pending record with empty
window class pending, at its position. -/
theorem runPolls_preserves_empty_class (polls : List (List ObsWindow))
    (st : List (SpecRecord × MatchState) × List Int) (i : Nat) (r : SpecRecord)
    (h : st.1[i]? = some (r, MatchState.pending)) (hcls : r.window_class = "") :
    (runPolls polls st).1[i]? = some (r, MatchState.pending) := by
  induction polls generalizing st with
  | nil => exact h
  | cons p t ih =>
    exact ih (pollOnce st.1 st.2 p)
      (pollOnce_preserves_empty_class st.1 st.2 p i r h hcls)

/-- C7: a record with empty `window_class` is never matched — for an
arbitrary sequence of polls (so in particular for every prefix of the run)
it is still pending after the polls, and the single timeout step at the end
of the run transitions it to `timedOut`. -/
theorem empty_class_pending_until_timeout (polls : List (List ObsWindow))
    (records : List SpecRecord) (i : Nat) (r : SpecRecord)
    (hr : records[i]? = some r) (hcls : r.window_class = "") :
    (runPolls polls (records.map (fun x => (x, MatchState.pending)), [])).1[i]? =
      some (r, MatchState.pending) ∧
    (matcherRun polls records)[i]? = some (r, MatchState.timedOut) := by
  have h0 : (records.map (fun x => (x, MatchState.pending)))[i]? =
      some (r, MatchState.pending) := by
    simp [List.getElem?_map, hr]
  have h1 := runPolls_preserves_empty_class polls
    (records.map (fun x => (x, MatchState.pending)), []) i r h0 hcls
  refine ⟨h1, ?_⟩
  unfold matcherRun timeoutAll
  simp [List.getElem?_map, h1]

/-- C7 witness: the concrete empty-class record against a two-poll run whose
first poll observes a window. -/
theorem empty_class_pending_until_timeout_witness :
    [recNoClass][0]? = some recNoClass ∧ recNoClass.window_class = "" ∧
    ((runPolls [[obs1], []]
        ([recNoClass].map (fun x => (x, MatchState.pending)), [])).1[0]? =
      some (recNoClass, MatchState.pending) ∧
     (matcherRun [[obs1], []] [recNoClass])[0]? =
      some (recNoClass, MatchState.timedOut)) :=
  ⟨rfl, rfl,
   empty_class_pending_until_timeout [[obs1], []] [recNoClass] 0 recNoClass
     rfl rfl⟩
